import Mathlib

/-
Verification development for the ampy command-line interface
(`ampy/cli.py`).  The Python commands are shallowly embedded as pure
Lean functions: the behaviour of the board and of the remote-filesystem
layer is passed in as explicit oracle arguments, console output and the
process exit status are returned as data, and a raised-and-uncaught
Python exception is modelled as a `fault` flag (the interpreter turns an
uncaught exception into a non-zero exit status, and a normal return of a
click command into status zero).
-/

set_option autoImplicit false

namespace Ampy

/-! ### POSIX path helpers

Embeddings of the `posixpath` / `os.path` functions used by `cli.py`
(`os.path.basename`, `os.path.abspath`, `os.path.relpath`,
`posixpath.join`, `posixpath.normpath`), following the CPython
implementations.  The process working directory is passed explicitly as
`cwd`. -/

/-- Embeds Python `s.split("/")`: split on every slash, keeping empty
pieces (so `"a//b"` gives `["a", "", "b"]` and `""` gives `[""]`). -/
def pySplitSlash (s : String) : List String :=
  go s.data []
where
  go : List Char → List Char → List String
    | [], cur => [String.mk cur.reverse]
    | c :: rest, cur =>
      if c = '/' then String.mk cur.reverse :: go rest []
      else go rest (c :: cur)

/-- Embeds Python `s.startswith(p)`. -/
def pyStartsWith (s p : String) : Bool :=
  s.data.take p.data.length == p.data

/-- Embeds Python `s.endswith(p)`. -/
def pyEndsWith (s p : String) : Bool :=
  s.data.drop (s.data.length - p.data.length) == p.data && decide (p.data.length ≤ s.data.length)

/-- Embeds the component loop of `posixpath.normpath`: skips empty and
`"."` components, resolves `".."` against the accumulated components
(`acc` holds them in reverse), keeping leading `".."`s for relative
paths and dropping them at the root of absolute paths. -/
def normCompsAux (isAbs : Bool) : List String → List String → List String
  | acc, [] => acc
  | acc, comp :: rest =>
    if comp = "" ∨ comp = "." then normCompsAux isAbs acc rest
    else if comp ≠ ".." ∨ (!isAbs ∧ acc = []) ∨ acc.head? = some ".." then
      normCompsAux isAbs (comp :: acc) rest
    else
      match acc with
      | [] => normCompsAux isAbs [] rest
      | _ :: accTail => normCompsAux isAbs accTail rest

/-- Embeds `posixpath.normpath` (CPython): collapses slashes, `"."` and
`".."` components, preserving the special leading `"//"`. -/
def posixNormpath (path : String) : String :=
  if path = "" then "."
  else
    let slashes : Nat :=
      if pyStartsWith path "//" && !pyStartsWith path "///" then 2
      else if pyStartsWith path "/" then 1 else 0
    let comps := pySplitSlash path
    let newComps := (normCompsAux (slashes != 0) [] comps).reverse
    let p := String.mk (List.replicate slashes '/') ++ String.intercalate "/" newComps
    if p = "" then "." else p

/-- Embeds the two-argument `posixpath.join`. -/
def posixJoin (a b : String) : String :=
  if pyStartsWith b "/" then b
  else if a = "" ∨ pyEndsWith a "/" then a ++ b
  else a ++ "/" ++ b

/-- Embeds `os.path.abspath` on POSIX: join with the working directory
when the path is relative, then normalise. -/
def osAbspath (cwd p : String) : String :=
  posixNormpath (if pyStartsWith p "/" then p else posixJoin cwd p)

/-- Accumulates the characters after the most recent slash; the
accumulator is kept reversed. -/
def lastComponentAux (acc : List Char) : List Char → List Char
  | [] => acc.reverse
  | c :: rest =>
    if c = '/' then lastComponentAux [] rest
    else lastComponentAux (c :: acc) rest

/-- Embeds `os.path.basename` on POSIX: everything after the last
slash. -/
def posixBasename (p : String) : String :=
  String.mk (lastComponentAux [] p.data)

/-- Length of the common leading run of two lists (the list analogue of
`os.path.commonprefix` on component lists). -/
def commonLen : List String → List String → Nat
  | a :: as', b :: bs' => if a = b then commonLen as' bs' + 1 else 0
  | _, _ => 0

/-- Embeds `os.path.relpath(path, start)` on POSIX: both arguments are
made absolute against `cwd`, split into non-empty components, and the
result climbs out of the uncommon part of `start` before descending into
the uncommon part of `path`. -/
def posixRelpath (cwd path start : String) : String :=
  let pa := (pySplitSlash (osAbspath cwd path)).filter (fun x => x ≠ "")
  let sa := (pySplitSlash (osAbspath cwd start)).filter (fun x => x ≠ "")
  let i := commonLen sa pa
  let rel := List.replicate (sa.length - i) ".." ++ pa.drop i
  if rel = [] then "." else String.intercalate "/" rel

/-! ### UTF-8 decoding

Embeds Python `bytes.decode("utf-8")` (strict): rejects stray
continuation bytes, overlong encodings, surrogates and values above
U+10FFFF; returns `none` where Python raises `UnicodeDecodeError`. -/

/-- Strict UTF-8 decoder over byte values. -/
def utf8Decode : List Nat → Option (List Char)
  | [] => some []
  | b :: rest =>
    if b < 0x80 then
      (utf8Decode rest).map (fun cs => Char.ofNat b :: cs)
    else if 0xC2 ≤ b ∧ b ≤ 0xDF then
      match rest with
      | b2 :: rest2 =>
        if 0x80 ≤ b2 ∧ b2 ≤ 0xBF then
          (utf8Decode rest2).map (fun cs => Char.ofNat ((b - 0xC0) * 0x40 + (b2 - 0x80)) :: cs)
        else none
      | [] => none
    else if 0xE0 ≤ b ∧ b ≤ 0xEF then
      match rest with
      | b2 :: b3 :: rest3 =>
        let lo2 := if b = 0xE0 then 0xA0 else 0x80
        let hi2 := if b = 0xED then 0x9F else 0xBF
        if lo2 ≤ b2 ∧ b2 ≤ hi2 ∧ 0x80 ≤ b3 ∧ b3 ≤ 0xBF then
          (utf8Decode rest3).map (fun cs =>
            Char.ofNat ((b - 0xE0) * 0x1000 + (b2 - 0x80) * 0x40 + (b3 - 0x80)) :: cs)
        else none
      | _ => none
    else if 0xF0 ≤ b ∧ b ≤ 0xF4 then
      match rest with
      | b2 :: b3 :: b4 :: rest4 =>
        let lo2 := if b = 0xF0 then 0x90 else 0x80
        let hi2 := if b = 0xF4 then 0x8F else 0xBF
        if lo2 ≤ b2 ∧ b2 ≤ hi2 ∧ 0x80 ≤ b3 ∧ b3 ≤ 0xBF ∧ 0x80 ≤ b4 ∧ b4 ≤ 0xBF then
          (utf8Decode rest4).map (fun cs =>
            Char.ofNat ((b - 0xF0) * 0x40000 + (b2 - 0x80) * 0x1000 +
              (b3 - 0x80) * 0x40 + (b4 - 0x80)) :: cs)
        else none
      | _ => none
    else none

/-! ### The `run` command (`cli.py` lines 316-354) -/

/-- Possible outcomes of a call to `files.Files.run`, as observed by the
`run` command: a captured-output value (`None` when not waiting),
an `IOError` (the only exception the command catches), or any other
exception. -/
inductive FsRunOutcome
  | ok (output : Option (List Nat))
  | ioError
  | otherExc
deriving DecidableEq

/-- Observable result of one `run` command invocation: the
`wait_for_output` value the command passed to the filesystem layer, the
chunks printed to standard output, the messages echoed to the error
stream, and the process exit status (0 for a normal return, 1 when an
exception escapes the command). -/
structure RunResult where
  waitFlagPassed : Bool
  stdout : List (List Char)
  stderr : List String
  exitCode : Nat
deriving DecidableEq

/-- Embeds the `run` command: calls the filesystem layer's `run` with
`not no_output`, prints the decoded output when one was returned,
and catches `IOError` by echoing a message to the error stream and
returning normally. -/
def run (localFile : String) (noOutput : Bool) (fsRun : Bool → FsRunOutcome) : RunResult :=
  let wait := !noOutput
  match fsRun wait with
  | FsRunOutcome.ok none =>
    { waitFlagPassed := wait, stdout := [], stderr := [], exitCode := 0 }
  | FsRunOutcome.ok (some bytes) =>
    match utf8Decode bytes with
    | some s => { waitFlagPassed := wait, stdout := [s], stderr := [], exitCode := 0 }
    | none => { waitFlagPassed := wait, stdout := [], stderr := [], exitCode := 1 }
  | FsRunOutcome.ioError =>
    { waitFlagPassed := wait, stdout := [],
      stderr := ["Failed to find or read input file: " ++ localFile], exitCode := 0 }
  | FsRunOutcome.otherExc =>
    { waitFlagPassed := wait, stdout := [], stderr := [], exitCode := 1 }

/-- Modelled from the spec: `ampy/files.py` is not among the sources.
Per the spec (section 4.2, `run`), `Files.run(local_path,
wait_for_output)` reads the local script (raising `IOError` when it
cannot be found or read) and, when `wait_for_output` is false, returns
immediately after submission without reading stdout/stderr and yields no
captured output; when true it returns the captured output bytes. -/
def filesRun (localScript : Option (List Nat)) (capturedOutput : List Nat) :
    Bool → FsRunOutcome := fun waitForOutput =>
  match localScript with
  | none => FsRunOutcome.ioError
  | some _ => FsRunOutcome.ok (if waitForOutput then some capturedOutput else none)

/-! ### The `get` command (`cli.py` lines 105-135) -/

/-- Observable result of one `get` command invocation: what was printed
to standard output (decoded text), what was written to the local file
(raw bytes), and whether an exception escaped the command. -/
structure GetOutcome where
  printed : Option (List Char)
  written : Option (List Nat)
  fault : Bool
deriving DecidableEq

/-- Embeds the `get` command, given the bytes the filesystem layer
returned for the remote file: with no local-file argument the contents
are decoded as UTF-8 and printed (a decode error escapes as a fault),
with one the raw bytes are written to it and nothing is printed. -/
def get (contents : List Nat) (hasLocalFile : Bool) : GetOutcome :=
  if hasLocalFile then { printed := none, written := some contents, fault := false }
  else
    match utf8Decode contents with
    | some s => { printed := some s, written := none, fault := false }
    | none => { printed := none, written := none, fault := true }

/-! ### The `reset` command (`cli.py` lines 357-426)

The command is driven by the board through two oracle values: `reply`,
the bytes the board returns from `eval("on_next_reset(...)")` (Python
truthiness of the reply is non-emptiness), and the outcome of the final
`exec_("reset()")` submission.  The calls the command makes are recorded
as a trace of actions. -/

/-- One observable action of the `reset` command, in the order the
command performs them: entering/leaving the raw REPL, executing the
helper-definition snippet (the `on_next_reset`/`reset` definitions sent
via `exec_`), evaluating `on_next_reset(<repr of mode>)`, the
`print("here we are", repr(r))` call carrying the board's reply,
echoing a non-empty reply to the error stream, and submitting
`exec_("reset()")`. -/
inductive ResetAct
  | enterRawRepl
  | exitRawRepl
  | execDefsSnippet
  | evalOnNextReset (mode : String)
  | printHereWeAre (reply : String)
  | echoErrReply (reply : String)
  | submitReset
deriving DecidableEq

/-- Outcome of the final `exec_("reset()")` submission: success, a
`serial.serialutil.SerialException` (the expected disconnection), or any
other exception. -/
inductive SubmitOutcome
  | ok
  | serialExc
  | otherExc
deriving DecidableEq

/-- Observable result of one `reset` command invocation: the trace of
actions performed and whether an exception escaped the command. -/
structure ResetOutcome where
  acts : List ResetAct
  fault : Bool
deriving DecidableEq

/-- Embeds the `reset` command: enter the raw REPL; for the soft mode
leave it again and return; otherwise send the helper definitions,
evaluate `on_next_reset` for the requested mode, print the debug line,
and either echo a non-empty reply to the error stream and return, or
submit `reset()`, swallowing the expected `SerialException`. -/
def reset (mode : String) (reply : String) (submit : SubmitOutcome) : ResetOutcome :=
  if mode = "SOFT" then
    { acts := [ResetAct.enterRawRepl, ResetAct.exitRawRepl], fault := false }
  else
    let pre := [ResetAct.enterRawRepl, ResetAct.execDefsSnippet,
                ResetAct.evalOnNextReset mode, ResetAct.printHereWeAre reply]
    if reply ≠ "" then { acts := pre ++ [ResetAct.echoErrReply reply], fault := false }
    else
      match submit with
      | SubmitOutcome.ok => { acts := pre ++ [ResetAct.submitReset], fault := false }
      | SubmitOutcome.serialExc => { acts := pre ++ [ResetAct.submitReset], fault := false }
      | SubmitOutcome.otherExc => { acts := pre ++ [ResetAct.submitReset], fault := true }

/-! ### The `put` command (`cli.py` lines 204-270) -/

/-- One entry of the `os.walk(localPath)` iteration as used by the `put`
command: the parent directory path and the plain files directly inside
it (the child-directory list is not used by the loop body). -/
structure WalkEntry where
  parent : String
  childFiles : List String
deriving DecidableEq

/-- Outcome of a `files.Files.mkdir` call as observed by `put`: success,
a `DirectoryExistsError` (the only exception the loop body catches), or
any other exception. -/
inductive MkdirOutcome
  | ok
  | dirExists
  | otherExc
deriving DecidableEq

/-- Observable result of the directory branch of `put`: the
`(remote_filename, data)` uploads performed, in order, and whether an
exception escaped the command. -/
structure PutDirResult where
  uploads : List (String × List Nat)
  fault : Bool
deriving DecidableEq

/-- Embeds `cli.py` line 250: the remote directory corresponding to one
walked local parent, `posixpath.normpath(posixpath.join(remote,
os.path.relpath(parent, localPath)))`. -/
def remoteParentFor (cwd remote localPath parent : String) : String :=
  posixNormpath (posixJoin remote (posixRelpath cwd parent localPath))

/-- Embeds the `for parent, child_dirs, child_files in os.walk(localPath)`
loop of `put` (lines 248-263): per entry, create the remote parent
directory and then upload each child file; a `DirectoryExistsError` from
`mkdir` aborts that entry's `try` block (skipping its files) and the
walk continues; any other exception escapes the command. -/
def putDirectory (cwd remote localPath : String) (mkdir : String → MkdirOutcome)
    (readFile : String → List Nat) : List WalkEntry → PutDirResult
  | [] => { uploads := [], fault := false }
  | e :: rest =>
    let rp := remoteParentFor cwd remote localPath e.parent
    match mkdir rp with
    | MkdirOutcome.ok =>
      let ups := e.childFiles.map (fun fn => (posixJoin rp fn, readFile (posixJoin e.parent fn)))
      let r := putDirectory cwd remote localPath mkdir readFile rest
      { uploads := ups ++ r.uploads, fault := r.fault }
    | MkdirOutcome.dirExists =>
      putDirectory cwd remote localPath mkdir readFile rest
    | MkdirOutcome.otherExc => { uploads := [], fault := true }

/-- Follows the claim's words, not the code: every file inside a local
directory whose remote counterpart already exists is silently skipped,
while every other directory contributes all of its files, and the
traversal covers all walked directories. -/
def putDirSkipSpec (cwd remote localPath : String) (mkdir : String → MkdirOutcome)
    (readFile : String → List Nat) (entries : List WalkEntry) : List (String × List Nat) :=
  entries.flatMap (fun e =>
    let rp := remoteParentFor cwd remote localPath e.parent
    if mkdir rp = MkdirOutcome.dirExists then []
    else e.childFiles.map (fun fn => (posixJoin rp fn, readFile (posixJoin e.parent fn))))

/-- Embeds `cli.py` lines 239-241: the remote destination used by `put`
is the second argument when one is given, and otherwise
`os.path.basename(os.path.abspath(localPath))`. -/
def putRemoteName (cwd localPath : String) : Option String → String
  | some r => r
  | none => posixBasename (osAbspath cwd localPath)

/-! ### The `cli` group callback (`cli.py` lines 47-102) -/

/-- Which construct arranges the closing of the board's transport: a
handler registered with the `atexit` process-exit hook, or a structured
scope-exit construct (a `with`/`try-finally` around the command). -/
inductive CleanupConstruct
  | atexitHook
  | scopeExit
deriving DecidableEq

/-- Observable result of the `cli` group callback: the board connection
it opens and stores as the context object, which construct it uses to
arrange the transport's closing, and whether the callback body itself
closes the board (it does not; only the registered handler does). -/
structure CliInit where
  boardPort : String
  boardBaud : Nat
  closeRegistration : CleanupConstruct
  closedInBody : Bool
deriving DecidableEq

/-- Embeds the `cli` group callback: fix the port name on Windows, open
the Pyboard connection (the float `rawdelay` option is passed through to
the board and does not affect anything modelled here), store it as the
context object, and register a `close` handler with `atexit`. -/
def cli (isWindows : Bool) (winFullPortName : String → String)
    (port : String) (baud : Nat) : CliInit :=
  let port' := if isWindows then winFullPortName port else port
  { boardPort := port', boardBaud := baud,
    closeRegistration := CleanupConstruct.atexitHook, closedInBody := false }

/-- Observable result of one invocation of the registered cleanup
handler: whether it called the board's `close`, and whether an exception
escaped it. -/
structure CleanupRun where
  calledBoardClose : Bool
  raised : Bool
deriving DecidableEq

/-- Embeds the `close` handler registered with `atexit` (lines 97-102):
call `board.close()` inside `try: ... except Exception: pass`, so a
close that raises is swallowed. -/
def close (boardClose : Except String Unit) : CleanupRun :=
  match boardClose with
  | Except.ok _ => { calledBoardClose := true, raised := false }
  | Except.error _ => { calledBoardClose := true, raised := false }

/-! ### Helper lemmas -/

/-- The collected last component never contains a slash, since the
accumulator is reset at every slash. -/
theorem lastComponentAux_no_slash (l : List Char) :
    ∀ acc : List Char, (∀ c ∈ acc, c ≠ '/') → '/' ∉ lastComponentAux acc l := by
  induction l with
  | nil =>
    intro acc hacc
    simp only [lastComponentAux]
    intro hmem
    exact hacc '/' (List.mem_reverse.mp hmem) rfl
  | cons c rest ih =>
    intro acc hacc
    simp only [lastComponentAux]
    by_cases hc : c = '/'
    · rw [if_pos hc]
      exact ih [] (by intro x hx; exact absurd hx (List.not_mem_nil x))
    · rw [if_neg hc]
      refine ih (c :: acc) ?_
      intro x hx
      rcases List.mem_cons.mp hx with h | h
      · exact h ▸ hc
      · exact hacc x h

/-- The result of `posixBasename` contains no slash. -/
theorem posixBasename_no_slash (p : String) : '/' ∉ (posixBasename p).data :=
  lastComponentAux_no_slash p.data [] (by intro c hc; exact absurd hc (List.not_mem_nil c))

/-! ### Claims -/

/-- C1, as stated, is false on the code: when the filesystem layer's
`run` raises `IOError` (the local input file cannot be found or read),
the `run` command reports the error to the error stream but returns
normally, so the process terminates with status zero, not non-zero. -/
theorem c1_counterexample :
    (Ampy.run "test.py" false (fun _ => FsRunOutcome.ioError)).exitCode = 0 ∧
    (Ampy.run "test.py" false (fun _ => FsRunOutcome.ioError)).stderr =
      ["Failed to find or read input file: test.py"] := by
  decide

/-- C1 (amended): when `run` cannot find or read the local input file,
the command reports the error to the error stream but swallows the
`IOError` and returns normally, terminating with status zero. -/
theorem c1_run_ioerror_reported_but_exit_zero (file : String) (noOutput : Bool)
    (fsRun : Bool → FsRunOutcome) (h : fsRun (!noOutput) = FsRunOutcome.ioError) :
    (Ampy.run file noOutput fsRun).stderr =
      ["Failed to find or read input file: " ++ file] ∧
    (Ampy.run file noOutput fsRun).exitCode = 0 := by
  simp [Ampy.run, h]

theorem c1_run_ioerror_reported_but_exit_zero_witness :
    (Ampy.run "loop.py" true (fun _ => FsRunOutcome.ioError)).stderr =
      ["Failed to find or read input file: loop.py"] ∧
    (Ampy.run "loop.py" true (fun _ => FsRunOutcome.ioError)).exitCode = 0 :=
  c1_run_ioerror_reported_but_exit_zero "loop.py" true (fun _ => FsRunOutcome.ioError) rfl

/-- C2, as stated, is false on the code: the `cli` group callback
arranges the board's closing through a handler registered with the
`atexit` process-exit hook, not through a structured scope-exit
construct. -/
theorem c2_counterexample :
    (Ampy.cli false (fun s => s) "/dev/ttyUSB0" 115200).closeRegistration ≠
      CleanupConstruct.scopeExit := by
  decide

/-- C2 (amended): for every invocation of the `cli` group callback,
closure of the board's transport is arranged by a `close` handler
registered with the implicit `atexit` process-exit hook — not by a
structured scope-exit construct — and the callback body itself never
closes the board. -/
theorem c2_close_registered_with_atexit (isWindows : Bool)
    (winFullPortName : String → String) (port : String) (baud : Nat) :
    (Ampy.cli isWindows winFullPortName port baud).closeRegistration =
      CleanupConstruct.atexitHook ∧
    (Ampy.cli isWindows winFullPortName port baud).closedInBody = false :=
  ⟨rfl, rfl⟩

/-- C3: when the final `exec_("reset()")` submission of a non-soft
`reset` raises a `SerialException` because the board disconnected, the
exception is swallowed and the command completes without surfacing a
fault. -/
theorem c3_reset_swallows_serial_exception (mode reply : String)
    (h1 : mode ≠ "SOFT") (h2 : reply = "") :
    (Ampy.reset mode reply SubmitOutcome.serialExc).fault = false ∧
    ResetAct.submitReset ∈ (Ampy.reset mode reply SubmitOutcome.serialExc).acts := by
  subst h2
  simp [Ampy.reset, h1]

theorem c3_reset_swallows_serial_exception_witness :
    (Ampy.reset "NORMAL" "" SubmitOutcome.serialExc).fault = false ∧
    ResetAct.submitReset ∈ (Ampy.reset "NORMAL" "" SubmitOutcome.serialExc).acts :=
  c3_reset_swallows_serial_exception "NORMAL" "" (by decide) rfl

/-- C4, as stated, is false on the code: a `reset` invocation with the
non-soft mode `NORMAL` (`--hard`) never calls `exit_raw_repl`, so the
session is not returned to Friendly on that path. -/
theorem c4_counterexample :
    ResetAct.exitRawRepl ∉ (Ampy.reset "NORMAL" "" SubmitOutcome.ok).acts := by
  decide

/-- C4 (amended): `reset` calls `exit_raw_repl` exactly when the mode is
the soft one (`--repl`, flag value `SOFT`); every non-soft mode ends the
command without returning the session to Friendly, on every return
path. -/
theorem c4_exit_raw_repl_iff_soft (mode reply : String) (submit : SubmitOutcome) :
    ResetAct.exitRawRepl ∈ (Ampy.reset mode reply submit).acts ↔ mode = "SOFT" := by
  by_cases h : mode = "SOFT"
  · subst h
    simp [Ampy.reset]
  · by_cases hr : reply = ""
    · subst hr
      cases submit <;> simp [Ampy.reset, h]
    · simp [Ampy.reset, h, hr]

/-- C5: `run` with the `--no-output` flag passes `wait_for_output =
false` to the filesystem layer, which submits without reading the
script's output and returns no captured output, and the command prints
nothing to standard output and exits with status zero. -/
theorem c5_run_no_output (file : String) (script captured : List Nat) :
    (Ampy.run file true (filesRun (some script) captured)).waitFlagPassed = false ∧
    (Ampy.run file true (filesRun (some script) captured)).stdout = [] ∧
    (Ampy.run file true (filesRun (some script) captured)).exitCode = 0 := by
  simp [Ampy.run, filesRun]

/-- C6: the cleanup handler registered at session start calls the
board's `close` and swallows every exception it raises, so cleanup
itself never raises — it is safe to invoke even when the board has
already disconnected or its transport is already closed. -/
theorem c6_cleanup_never_raises (boardClose : Except String Unit) :
    (Ampy.close boardClose).calledBoardClose = true ∧
    (Ampy.close boardClose).raised = false := by
  cases boardClose <;> exact ⟨rfl, rfl⟩

/-- C7: a successful `get` with no local file argument decodes the
retrieved contents as UTF-8 and prints them to standard output, writing
nothing; with a local file argument it writes the raw retrieved bytes to
that file and prints nothing. -/
theorem c7_get_prints_or_writes (contents : List Nat) (s : List Char)
    (h : utf8Decode contents = some s) :
    Ampy.get contents false = { printed := some s, written := none, fault := false } ∧
    Ampy.get contents true = { printed := none, written := some contents, fault := false } := by
  constructor
  · simp [Ampy.get, h]
  · simp [Ampy.get]

theorem c7_get_prints_or_writes_witness :
    Ampy.get [104, 105] false =
      { printed := some ['h', 'i'], written := none, fault := false } ∧
    Ampy.get [104, 105] true =
      { printed := none, written := some [104, 105], fault := false } :=
  c7_get_prints_or_writes [104, 105] ['h', 'i'] (by decide)

/-- C8: during a directory `put`, a `DirectoryExistsError` raised while
creating a remote parent directory aborts that directory's `try` block
before any file inside it is uploaded, yet the walk continues and the
command succeeds: the uploads are exactly those of the directories whose
`mkdir` did not report an existing directory, and every file inside a
directory whose remote counterpart already exists is silently
skipped. -/
theorem c8_put_skips_existing_directories (cwd remote localPath : String)
    (mkdir : String → MkdirOutcome) (readFile : String → List Nat)
    (entries : List WalkEntry)
    (h : ∀ e ∈ entries,
      mkdir (remoteParentFor cwd remote localPath e.parent) ≠ MkdirOutcome.otherExc) :
    (putDirectory cwd remote localPath mkdir readFile entries).fault = false ∧
    (putDirectory cwd remote localPath mkdir readFile entries).uploads =
      putDirSkipSpec cwd remote localPath mkdir readFile entries := by
  induction entries with
  | nil => exact ⟨rfl, rfl⟩
  | cons e rest ih =>
    have he := h e (List.mem_cons_self e rest)
    obtain ⟨ihf, ihu⟩ := ih (fun e' hm => h e' (List.mem_cons_of_mem e hm))
    rcases hm : mkdir (remoteParentFor cwd remote localPath e.parent) with _ | _ | _
    · constructor
      · simp [putDirectory, hm, ihf]
      · simp [putDirectory, putDirSkipSpec, hm, ihu]
    · constructor
      · simp [putDirectory, hm, ihf]
      · simp only [putDirectory, hm]
        simp [putDirSkipSpec, hm, ihu]
    · exact absurd hm he

theorem c8_put_skips_existing_directories_witness :
    (putDirectory "/home/user" "lib" "lib"
        (fun s => if s = "lib" then MkdirOutcome.dirExists else MkdirOutcome.ok)
        (fun _ => [49])
        [⟨"lib", ["a.py"]⟩, ⟨"lib/sub", ["b.py"]⟩]).fault = false ∧
    (putDirectory "/home/user" "lib" "lib"
        (fun s => if s = "lib" then MkdirOutcome.dirExists else MkdirOutcome.ok)
        (fun _ => [49])
        [⟨"lib", ["a.py"]⟩, ⟨"lib/sub", ["b.py"]⟩]).uploads =
      putDirSkipSpec "/home/user" "lib" "lib"
        (fun s => if s = "lib" then MkdirOutcome.dirExists else MkdirOutcome.ok)
        (fun _ => [49])
        [⟨"lib", ["a.py"]⟩, ⟨"lib/sub", ["b.py"]⟩] :=
  c8_put_skips_existing_directories "/home/user" "lib" "lib"
    (fun s => if s = "lib" then MkdirOutcome.dirExists else MkdirOutcome.ok)
    (fun _ => [49])
    [⟨"lib", ["a.py"]⟩, ⟨"lib/sub", ["b.py"]⟩] (by decide)

/-- C9: every `reset` invocation with a non-soft mode (`--bootloader`,
`--hard`, or `--safe`) unconditionally performs, as its first four
actions, entering the raw REPL, sending the helper definitions,
evaluating `on_next_reset` for the mode, and printing the "here we are"
line carrying the repr of the board's reply — before deciding whether to
echo an error or submit the reset. -/
theorem c9_reset_prints_here_we_are (mode reply : String) (submit : SubmitOutcome)
    (h : mode = "BOOTLOADER" ∨ mode = "NORMAL" ∨ mode = "SAFE_MODE") :
    (Ampy.reset mode reply submit).acts.take 4 =
      [ResetAct.enterRawRepl, ResetAct.execDefsSnippet,
       ResetAct.evalOnNextReset mode, ResetAct.printHereWeAre reply] := by
  have hm : mode ≠ "SOFT" := by rcases h with h | h | h <;> subst h <;> decide
  by_cases hr : reply = ""
  · subst hr
    cases submit <;> simp [Ampy.reset, hm]
  · simp [Ampy.reset, hm, hr]

theorem c9_reset_prints_here_we_are_witness :
    (Ampy.reset "BOOTLOADER" "" SubmitOutcome.ok).acts.take 4 =
      [ResetAct.enterRawRepl, ResetAct.execDefsSnippet,
       ResetAct.evalOnNextReset "BOOTLOADER", ResetAct.printHereWeAre ""] :=
  c9_reset_prints_here_we_are "BOOTLOADER" "" SubmitOutcome.ok (Or.inl rfl)

/-- C10: a `put` invocation without a second (remote) argument uses as
remote destination the base name of the absolute form of the local path;
that name contains no path separator, so the local file or folder is
placed directly under the board's root under its own name. -/
theorem c10_put_default_remote_is_basename (cwd localPath : String) :
    putRemoteName cwd localPath none = posixBasename (osAbspath cwd localPath) ∧
    '/' ∉ (putRemoteName cwd localPath none).data :=
  ⟨rfl, posixBasename_no_slash (osAbspath cwd localPath)⟩

end Ampy
